import Mathlib

/-!
Shallow embedding of the BlogByYu Flask application (`src/main.py`).

The application is a small blog: a relational store with three tables
(`users`, `blog_posts`, `comments`), session-based authentication, and
request handlers `register`, `login`, `show_post` (view + add comment),
`add_new_post`, `edit_post`, `delete_post`, the last three wrapped by the
`admin_only` decorator.

Tables are embedded as Lean lists of rows; the SQLAlchemy session and the
SQLite backend are embedded by explicit state passing; uncaught Python /
SQLAlchemy exceptions are embedded as `Except` errors.  Form validation
(`validate_on_submit`) is external input to each handler: `none` stands for
a GET request or an invalid form, `some f` for a valid POST submission.
-/

namespace Blog

/-- Modelled from the spec: the opaque salted hash produced by
`werkzeug.security.generate_password_hash` (an external library primitive
whose code is not in the repository).  The spec describes it as a salted,
slow, one-way derivation that is deterministic to verify; it is embedded as
a salt together with an abstract derived key, with the derivation idealized
as injective in the plaintext (one-wayness plays no role in the claims). -/
structure PwHash where
  salt : Nat
  derivedKey : String
  deriving DecidableEq, Repr

/-- A row of the `users` table (`class User`, main.py lines 50-57).
`password` holds the opaque password hash.  The `email` column carries
`nullable=False` but no `unique=True`. -/
structure User where
  id : Nat
  email : String
  password : PwHash
  name : String
  deriving DecidableEq, Repr

/-- A row of the `blog_posts` table (`class BlogPost`, main.py lines 64-77).
`author_id` is a nullable foreign key into `users`; `title` carries a
`unique=True` constraint enforced by the database on commit. -/
structure BlogPost where
  id : Nat
  authorId : Option Nat
  title : String
  subtitle : String
  date : String
  body : String
  imgUrl : String
  deriving DecidableEq, Repr

/-- A row of the `comments` table (`class Comment`, main.py lines 79-86).
Both `commenter_id` and `post_id` are nullable foreign keys: neither column
declares `nullable=False`. -/
structure Comment where
  id : Nat
  commenterId : Option Nat
  postId : Option Nat
  text : String
  deriving DecidableEq, Repr

/-- The backing store (`blog.db`): the three tables plus the next
autoincrement primary key for each. -/
structure Store where
  users : List User
  posts : List BlogPost
  comments : List Comment
  nextUserId : Nat
  nextPostId : Nat
  nextCommentId : Nat
  deriving DecidableEq, Repr

/-- An HTTP response as produced by the handlers: `redirect(url_for(e))`
(with an optional `post_id` argument), `abort(403)`, or
`render_template(name, ...)`. -/
inductive Response where
  | redirectTo (endpoint : String) (postIdArg : Option Nat)
  | forbidden
  | renderTemplate (name : String)
  deriving DecidableEq, Repr

/-- Uncaught exceptions escaping a handler: SQLAlchemy `IntegrityError`
(UNIQUE constraint violation on commit), Python `AttributeError` (attribute
access on `None`), SQLAlchemy `UnmappedInstanceError`
(`db.session.delete(None)`), SQLAlchemy `MultipleResultsFound`
(`scalar_one` with several rows). -/
inductive AppError where
  | integrityError
  | attributeError
  | unmappedInstanceError
  | multipleResultsFound
  deriving DecidableEq, Repr

/-- The observable outcome of one handled request: the store after the
request, the response, the flash messages emitted, and the user id passed
to `login_user` when a session was established (`none`: no session
established by this request). -/
structure HandlerResult where
  store : Store
  response : Response
  flashes : List String
  loginUser : Option Nat
  deriving DecidableEq, Repr

/-- `BlogPost.query.get(post_id)`: primary-key lookup in `blog_posts`,
returning `None` when no row has that id. -/
def queryGetPost (σ : Store) (postId : Nat) : Option BlogPost :=
  σ.posts.find? (fun p => p.id == postId)

/-- Modelled from the spec: `generate_password_hash(password,
method='pbkdf2:sha256', salt_length=8)` derives an opaque hash from the
plaintext and a fresh random salt (the salt is passed in explicitly here,
making the randomness an input). -/
def generate_password_hash (password : String) (salt : Nat) : PwHash :=
  ⟨salt, password⟩

/-- Modelled from the spec: `werkzeug.security.check_password_hash`
verifies a plaintext against a stored hash by re-deriving with the stored
hash's own salt and comparing; a mismatch is `false`, not an error. -/
def check_password_hash (pwhash : PwHash) (password : String) : Bool :=
  pwhash == generate_password_hash password pwhash.salt

/-- The `admin_only` decorator (main.py lines 92-104).  `current_user.id`
raises `AttributeError` for the anonymous identity (embedded as `none`),
which is caught and turned into a redirect to the post listing; a
non-anonymous identity whose id is not 1 gets `abort(403)`; identity 1
falls through to the wrapped handler. -/
def admin_only (func : Option User → Store → Except AppError HandlerResult)
    (currentUser : Option User) (σ : Store) : Except AppError HandlerResult :=
  match currentUser with
  | none => .ok ⟨σ, .redirectTo "get_all_posts" none, [], none⟩
  | some u =>
      if u.id ≠ 1 then .ok ⟨σ, .forbidden, [], none⟩
      else func currentUser σ

/-- The `/` route `get_all_posts` (main.py lines 106-109): read-only
listing of all posts. -/
def get_all_posts (σ : Store) : Except AppError HandlerResult :=
  .ok ⟨σ, .renderTemplate "index.html", [], none⟩

/-- A valid `RegisterForm` submission. -/
structure RegisterForm where
  email : String
  password : String
  name : String
  deriving DecidableEq, Repr

/-- A valid `LoginForm` submission. -/
structure LoginForm where
  email : String
  password : String
  deriving DecidableEq, Repr

/-- A valid `CommentForm` submission. -/
structure CommentForm where
  comment : String
  deriving DecidableEq, Repr

/-- A valid `CreatePostForm` submission (used by both the new-post and the
edit-post routes). -/
structure CreatePostForm where
  title : String
  subtitle : String
  body : String
  imgUrl : String
  deriving DecidableEq, Repr

/-- The `/register` route (main.py lines 112-131).  On a valid submission:
if `select(User).filter_by(email=...)` finds no row, a new `User` with the
hashed password is inserted, `login_user` establishes a session for it and
the response redirects to the post listing; otherwise a flash notice is set
and the response redirects to the login page.  `salt` is the random salt
drawn by `generate_password_hash`. -/
def register (salt : Nat) (form : Option RegisterForm) (σ : Store) :
    Except AppError HandlerResult :=
  match form with
  | none => .ok ⟨σ, .renderTemplate "register.html", [], none⟩
  | some f =>
      match σ.users.find? (fun u => u.email == f.email) with
      | none =>
          let hashed_pw := generate_password_hash f.password salt
          let user : User := ⟨σ.nextUserId, f.email, hashed_pw, f.name⟩
          .ok ⟨{ σ with users := σ.users ++ [user], nextUserId := σ.nextUserId + 1 },
               .redirectTo "get_all_posts" none, [], some user.id⟩
      | some _ =>
          .ok ⟨σ, .redirectTo "login" none,
               ["We already have this address on file, please log in."], none⟩

/-- The `/login` route (main.py lines 134-150).  On a valid submission,
`scalar_one` over `select(User).filter_by(email=...)` raises
`NoResultFound` (caught: flash + redirect to login) when no row matches and
`MultipleResultsFound` (uncaught) when several match; with exactly one
match the submitted password is checked against the stored hash. -/
def login (form : Option LoginForm) (σ : Store) : Except AppError HandlerResult :=
  match form with
  | none => .ok ⟨σ, .renderTemplate "login.html", [], none⟩
  | some f =>
      match σ.users.filter (fun u => u.email == f.email) with
      | [] => .ok ⟨σ, .redirectTo "login" none, ["Unknown user"], none⟩
      | [user] =>
          if check_password_hash user.password f.password then
            .ok ⟨σ, .redirectTo "get_all_posts" none, [], some user.id⟩
          else
            .ok ⟨σ, .redirectTo "login" none, ["Invalid password"], none⟩
      | _ => .error .multipleResultsFound

/-- The `/post/<post_id>` route `show_post` (main.py lines 160-177).  On a
valid comment submission: an anonymous requester is flashed and redirected
to login; an authenticated one gets a `Comment` row inserted whose
`commenter` is the current user and whose `post` is
`BlogPost.query.get(post_id)` — which is `None` when the id matches no
post, leaving the comment's `post_id` NULL. -/
def show_post (currentUser : Option User) (postId : Nat)
    (form : Option CommentForm) (σ : Store) : Except AppError HandlerResult :=
  let requested_post := queryGetPost σ postId
  match form with
  | none => .ok ⟨σ, .renderTemplate "post.html", [], none⟩
  | some f =>
      match currentUser with
      | none =>
          .ok ⟨σ, .redirectTo "login" none,
               ["You need to log in or register in order to leave comments."], none⟩
      | some u =>
          let comment : Comment :=
            ⟨σ.nextCommentId, some u.id, requested_post.map (fun p => p.id), f.comment⟩
          .ok ⟨{ σ with comments := σ.comments ++ [comment],
                        nextCommentId := σ.nextCommentId + 1 },
               .redirectTo "show_post" (some postId), [], none⟩

/-- Body of the `/new-post` route inside the `admin_only` wrapper (main.py
lines 190-206).  On a valid submission a `BlogPost` is built from the form,
`author=current_user` and today's date, and committed; the commit raises
`IntegrityError` when the UNIQUE constraint on `title` is violated. -/
def add_new_post_body (today : String) (form : Option CreatePostForm)
    (currentUser : Option User) (σ : Store) : Except AppError HandlerResult :=
  match form with
  | none => .ok ⟨σ, .renderTemplate "make-post.html", [], none⟩
  | some f =>
      if σ.posts.any (fun p => p.title == f.title) then .error .integrityError
      else
        let new_post : BlogPost :=
          ⟨σ.nextPostId, currentUser.map (fun u => u.id),
           f.title, f.subtitle, today, f.body, f.imgUrl⟩
        .ok ⟨{ σ with posts := σ.posts ++ [new_post], nextPostId := σ.nextPostId + 1 },
             .redirectTo "get_all_posts" none, [], none⟩

/-- The `/new-post` route: `admin_only` applied to the body. -/
def add_new_post (today : String) (form : Option CreatePostForm)
    (currentUser : Option User) (σ : Store) : Except AppError HandlerResult :=
  admin_only (add_new_post_body today form) currentUser σ

/-- Body of the `/edit-post/<post_id>` route inside the `admin_only`
wrapper (main.py lines 209-227).  `BlogPost.query.get` is read first and
its attributes are accessed unconditionally to prefill the form, so an
unknown id raises `AttributeError`.  On a valid submission the four
editable fields of the row are overwritten and committed; the commit raises
`IntegrityError` when the new title collides with a different row's
title. -/
def edit_post_body (postId : Nat) (form : Option CreatePostForm)
    (_currentUser : Option User) (σ : Store) : Except AppError HandlerResult :=
  match queryGetPost σ postId with
  | none => .error .attributeError
  | some post =>
      match form with
      | none => .ok ⟨σ, .renderTemplate "make-post.html", [], none⟩
      | some f =>
          if σ.posts.any (fun p => p.id != post.id && p.title == f.title) then
            .error .integrityError
          else
            let post2 : BlogPost :=
              { post with title := f.title, subtitle := f.subtitle,
                          imgUrl := f.imgUrl, body := f.body }
            .ok ⟨{ σ with posts :=
                     σ.posts.map (fun p => if p.id == post.id then post2 else p) },
                 .redirectTo "show_post" (some post.id), [], none⟩

/-- The `/edit-post/<post_id>` route: `admin_only` applied to the body. -/
def edit_post (postId : Nat) (form : Option CreatePostForm)
    (currentUser : Option User) (σ : Store) : Except AppError HandlerResult :=
  admin_only (edit_post_body postId form) currentUser σ

/-- Body of the `/delete/<post_id>` route inside the `admin_only` wrapper
(main.py lines 230-236).  `db.session.delete(None)` raises
`UnmappedInstanceError` for an unknown id.  For a found row the delete is
unconditional with no cascade configured on the `comments` relationship, so
SQLAlchemy nulls out the `post_id` foreign key of the post's comments
rather than deleting them. -/
def delete_post_body (postId : Nat) (_currentUser : Option User) (σ : Store) :
    Except AppError HandlerResult :=
  match queryGetPost σ postId with
  | none => .error .unmappedInstanceError
  | some post =>
      .ok ⟨{ σ with
             posts := σ.posts.filter (fun p => p.id != post.id),
             comments := σ.comments.map (fun c =>
               if c.postId == some post.id then { c with postId := none } else c) },
           .redirectTo "get_all_posts" none, [], none⟩

/-- The `/delete/<post_id>` route: `admin_only` applied to the body. -/
def delete_post (postId : Nat) (currentUser : Option User) (σ : Store) :
    Except AppError HandlerResult :=
  admin_only (delete_post_body postId) currentUser σ

/-- Referential integrity of the comment table: every comment references an
existing post and an existing user. -/
def noOrphanComments (σ : Store) : Prop :=
  ∀ c ∈ σ.comments,
    (∃ p ∈ σ.posts, some p.id = c.postId) ∧ (∃ u ∈ σ.users, some u.id = c.commenterId)

instance {ε α : Type} [DecidableEq ε] [DecidableEq α] : DecidableEq (Except ε α) :=
  fun x y =>
    match x, y with
    | .ok a, .ok b =>
        if h : a = b then .isTrue (h ▸ rfl) else .isFalse (fun hc => h (Except.ok.inj hc))
    | .error a, .error b =>
        if h : a = b then .isTrue (h ▸ rfl) else .isFalse (fun hc => h (Except.error.inj hc))
    | .ok _, .error _ => .isFalse (fun hc => Except.noConfusion hc)
    | .error _, .ok _ => .isFalse (fun hc => Except.noConfusion hc)

instance (σ : Store) : Decidable (noOrphanComments σ) := by
  unfold noOrphanComments; infer_instance

/-- Sample data: the first registered user, whose id 1 makes it the
designated admin. -/
def alice : User := ⟨1, "alice@x.com", ⟨3, "pw"⟩, "Alice"⟩

/-- Sample data: an ordinary (non-admin) user. -/
def bob : User := ⟨2, "bob@x.com", ⟨4, "pw2"⟩, "Bob"⟩

/-- Sample data: a post authored by the admin. -/
def post1 : BlogPost := ⟨1, some 1, "First post", "sub", "January 01, 2026", "body", "img"⟩

/-- Sample data: a comment by Bob on the post. -/
def comment1 : Comment := ⟨1, some 2, some 1, "nice"⟩

/-- Sample data: a populated store. -/
def store1 : Store := ⟨[alice, bob], [post1], [comment1], 3, 2, 2⟩

/-- Sample data: the store right after `db.create_all()` (SQLite
autoincrement keys start at 1). -/
def emptyStore : Store := ⟨[], [], [], 1, 1, 1⟩

/-- C1: for every request to a route wrapped by `admin_only`, whatever the
store state: an anonymous identity gets a redirect to the post listing, an
identity with id other than 1 gets 403 Forbidden, and identity 1 falls
through to the wrapped handler; the decision depends only on the current
identity. -/
theorem admin_only_contract
    (func : Option User → Store → Except AppError HandlerResult) (σ : Store) :
    admin_only func none σ = .ok ⟨σ, .redirectTo "get_all_posts" none, [], none⟩ ∧
    (∀ u : User, u.id ≠ 1 → admin_only func (some u) σ = .ok ⟨σ, .forbidden, [], none⟩) ∧
    (∀ u : User, u.id = 1 → admin_only func (some u) σ = func (some u) σ) := by
  refine ⟨rfl, fun u h => ?_, fun u h => ?_⟩ <;> simp [admin_only, h]

/-- Witness for C1 at a concrete handler, store and identities. -/
theorem admin_only_contract_witness :
    admin_only (delete_post_body 1) (some bob) store1 = .ok ⟨store1, .forbidden, [], none⟩ ∧
    admin_only (delete_post_body 1) (some alice) store1 =
      delete_post_body 1 (some alice) store1 :=
  ⟨(admin_only_contract (delete_post_body 1) store1).2.1 bob (by decide),
   (admin_only_contract (delete_post_body 1) store1).2.2 alice (by decide)⟩

/-- C2 evidence: in a store satisfying the no-orphan-comment invariant, the
admin deleting post 1 (which has a comment) succeeds and leaves the comment
row behind with a NULL `post_id`, breaking the invariant. -/
theorem delete_post_orphans_comment :
    noOrphanComments store1 ∧
    delete_post 1 (some alice) store1 =
      .ok ⟨⟨[alice, bob], [], [⟨1, some 2, none, "nice"⟩], 3, 2, 2⟩,
           .redirectTo "get_all_posts" none, [], none⟩ ∧
    ¬ noOrphanComments ⟨[alice, bob], [], [⟨1, some 2, none, "nice"⟩], 3, 2, 2⟩ := by
  exact ⟨by decide, by decide, by decide⟩

/-- C3: a valid registration with an email no stored user has creates
exactly one new user row (password stored hashed), logs that user in and
redirects to the post listing; with an already-stored email the store is
unchanged, a flash notice is set and the response redirects to login. -/
theorem register_contract (σ : Store) (salt : Nat) (f : RegisterForm) :
    ((∀ u ∈ σ.users, u.email ≠ f.email) →
      register salt (some f) σ =
        .ok ⟨{ σ with
               users := σ.users ++
                 [⟨σ.nextUserId, f.email, generate_password_hash f.password salt, f.name⟩],
               nextUserId := σ.nextUserId + 1 },
             .redirectTo "get_all_posts" none, [], some σ.nextUserId⟩) ∧
    ((∃ u ∈ σ.users, u.email = f.email) →
      register salt (some f) σ =
        .ok ⟨σ, .redirectTo "login" none,
             ["We already have this address on file, please log in."], none⟩) := by
  constructor
  · intro h
    have hf : σ.users.find? (fun u => u.email == f.email) = none :=
      List.find?_eq_none.mpr (fun x hx => by simpa using h x hx)
    simp [register, hf]
  · rintro ⟨u, hu, he⟩
    have hs : (σ.users.find? (fun v => v.email == f.email)).isSome :=
      List.find?_isSome.mpr ⟨u, hu, by simp [he]⟩
    obtain ⟨w, hw⟩ := Option.isSome_iff_exists.mp hs
    simp [register, hw]

/-- Witness for C3: a fresh email and a duplicate email against the sample
store. -/
theorem register_contract_witness :
    register 7 (some ⟨"carol@x.com", "s3cret", "Carol"⟩) store1 =
      .ok ⟨{ store1 with
             users := store1.users ++
               [⟨store1.nextUserId, "carol@x.com", generate_password_hash "s3cret" 7, "Carol"⟩],
             nextUserId := store1.nextUserId + 1 },
           .redirectTo "get_all_posts" none, [], some store1.nextUserId⟩ ∧
    register 7 (some ⟨"alice@x.com", "s3cret", "Carol"⟩) store1 =
      .ok ⟨store1, .redirectTo "login" none,
           ["We already have this address on file, please log in."], none⟩ :=
  ⟨(register_contract store1 7 ⟨"carol@x.com", "s3cret", "Carol"⟩).1 (by decide),
   (register_contract store1 7 ⟨"alice@x.com", "s3cret", "Carol"⟩).2
     ⟨alice, by decide, by decide⟩⟩

/-- C4: a valid login naming an email held by exactly one stored user logs
that exact user in and redirects to the post listing when the password
verifies against the stored hash, and sets an invalid-password notice with
no session when it does not; an email held by no stored user sets an
unknown-user notice with no session. -/
theorem login_contract (σ : Store) (f : LoginForm) :
    (∀ u : User, σ.users.filter (fun v => v.email == f.email) = [u] →
      (check_password_hash u.password f.password = true →
        login (some f) σ = .ok ⟨σ, .redirectTo "get_all_posts" none, [], some u.id⟩) ∧
      (check_password_hash u.password f.password = false →
        login (some f) σ = .ok ⟨σ, .redirectTo "login" none, ["Invalid password"], none⟩)) ∧
    ((∀ u ∈ σ.users, u.email ≠ f.email) →
      login (some f) σ = .ok ⟨σ, .redirectTo "login" none, ["Unknown user"], none⟩) := by
  constructor
  · intro u hu
    constructor <;> intro hc <;> simp [login, hu, hc]
  · intro h
    have hf : σ.users.filter (fun v => v.email == f.email) = [] :=
      List.filter_eq_nil_iff.mpr (fun x hx => by simpa using h x hx)
    simp [login, hf]

/-- Witness for C4: correct password, wrong password, unknown email against
the sample store. -/
theorem login_contract_witness :
    login (some ⟨"bob@x.com", "pw2"⟩) store1 =
      .ok ⟨store1, .redirectTo "get_all_posts" none, [], some 2⟩ ∧
    login (some ⟨"bob@x.com", "nope"⟩) store1 =
      .ok ⟨store1, .redirectTo "login" none, ["Invalid password"], none⟩ ∧
    login (some ⟨"zed@x.com", "pw"⟩) store1 =
      .ok ⟨store1, .redirectTo "login" none, ["Unknown user"], none⟩ :=
  ⟨((login_contract store1 ⟨"bob@x.com", "pw2"⟩).1 bob (by decide)).1 (by decide),
   ((login_contract store1 ⟨"bob@x.com", "nope"⟩).1 bob (by decide)).2 (by decide),
   (login_contract store1 ⟨"zed@x.com", "pw"⟩).2 (by decide)⟩

/-- C5: on a post page whose post id is stored, a valid comment submission
by an anonymous requester leaves the store unchanged and redirects to
login with a notice, while one by an authenticated user appends exactly one
comment row linked to that user and that post and redirects back to the
same post page. -/
theorem show_post_comment_contract (σ : Store) (postId : Nat) (f : CommentForm)
    (post : BlogPost) (hp : queryGetPost σ postId = some post) :
    (show_post none postId (some f) σ =
      .ok ⟨σ, .redirectTo "login" none,
           ["You need to log in or register in order to leave comments."], none⟩) ∧
    (∀ u : User, show_post (some u) postId (some f) σ =
      .ok ⟨{ σ with
             comments := σ.comments ++ [⟨σ.nextCommentId, some u.id, some postId, f.comment⟩],
             nextCommentId := σ.nextCommentId + 1 },
           .redirectTo "show_post" (some postId), [], none⟩) := by
  have hp2 : σ.posts.find? (fun p => p.id == postId) = some post := hp
  have hid : post.id = postId := by simpa using List.find?_some hp2
  constructor
  · simp [show_post]
  · intro u
    simp [show_post, queryGetPost, hp2, hid]

/-- Witness for C5: anonymous and authenticated comment submissions on the
sample store's post 1. -/
theorem show_post_comment_contract_witness :
    show_post none 1 (some ⟨"hey"⟩) store1 =
      .ok ⟨store1, .redirectTo "login" none,
           ["You need to log in or register in order to leave comments."], none⟩ ∧
    show_post (some bob) 1 (some ⟨"hey"⟩) store1 =
      .ok ⟨{ store1 with
             comments := store1.comments ++ [⟨store1.nextCommentId, some bob.id, some 1, "hey"⟩],
             nextCommentId := store1.nextCommentId + 1 },
           .redirectTo "show_post" (some 1), [], none⟩ :=
  ⟨(show_post_comment_contract store1 1 ⟨"hey"⟩ post1 (by decide)).1,
   (show_post_comment_contract store1 1 ⟨"hey"⟩ post1 (by decide)).2 bob⟩

/-- C6: an admin edit of a stored post (with a title that collides with no
other row, so the commit succeeds) overwrites exactly the four editable
fields of that row, keeps its id, author and date, leaves the comment and
user tables and every other post row unchanged, and redirects to that
post's view page. -/
theorem edit_post_frame (σ : Store) (postId : Nat) (f : CreatePostForm) (u : User)
    (hadmin : u.id = 1) (post : BlogPost) (hp : queryGetPost σ postId = some post)
    (hti : ∀ p ∈ σ.posts, p.id ≠ post.id → p.title ≠ f.title) :
    edit_post postId (some f) (some u) σ =
      .ok ⟨{ σ with posts := σ.posts.map (fun p =>
               if p.id == post.id then
                 { post with title := f.title, subtitle := f.subtitle,
                             imgUrl := f.imgUrl, body := f.body }
               else p) },
           .redirectTo "show_post" (some post.id), [], none⟩ ∧
    ({ post with title := f.title, subtitle := f.subtitle,
                 imgUrl := f.imgUrl, body := f.body } : BlogPost).id = post.id ∧
    ({ post with title := f.title, subtitle := f.subtitle,
                 imgUrl := f.imgUrl, body := f.body } : BlogPost).authorId = post.authorId ∧
    ({ post with title := f.title, subtitle := f.subtitle,
                 imgUrl := f.imgUrl, body := f.body } : BlogPost).date = post.date ∧
    (∀ p ∈ σ.posts, p.id ≠ post.id →
      p ∈ σ.posts.map (fun p2 =>
        if p2.id == post.id then
          { post with title := f.title, subtitle := f.subtitle,
                      imgUrl := f.imgUrl, body := f.body }
        else p2)) := by
  have hany : σ.posts.any (fun p => p.id != post.id && p.title == f.title) = false := by
    rw [List.any_eq_false]
    intro x hx
    simp only [Bool.and_eq_true, bne_iff_ne, beq_iff_eq, not_and]
    exact hti x hx
  refine ⟨?_, rfl, rfl, rfl, ?_⟩
  · simp [edit_post, admin_only, hadmin, edit_post_body, hp, hany]
  · intro p hmem hne
    exact List.mem_map.mpr ⟨p, hmem, by simp [hne]⟩

/-- Witness for C6: the admin edits the sample store's post 1. -/
theorem edit_post_frame_witness :
    edit_post 1 (some ⟨"Renamed", "new sub", "new body", "new img"⟩) (some alice) store1 =
      .ok ⟨{ store1 with posts := store1.posts.map (fun p =>
               if p.id == post1.id then
                 { post1 with title := "Renamed", subtitle := "new sub",
                              imgUrl := "new img", body := "new body" }
               else p) },
           .redirectTo "show_post" (some post1.id), [], none⟩ :=
  (edit_post_frame store1 1 ⟨"Renamed", "new sub", "new body", "new img"⟩ alice (by decide)
    post1 (by decide) (by decide)).1

/-- C7: an admin create-post submission whose title equals a stored post's
title fails with the UNIQUE-constraint IntegrityError (nothing is
committed); one whose title is fresh succeeds, appends exactly one post row,
and afterwards exactly one stored post bears that title. -/
theorem add_new_post_title_unique (σ : Store) (today : String) (f : CreatePostForm)
    (u : User) (hadmin : u.id = 1) :
    ((∃ p ∈ σ.posts, p.title = f.title) →
      add_new_post today (some f) (some u) σ = .error .integrityError) ∧
    ((∀ p ∈ σ.posts, p.title ≠ f.title) →
      add_new_post today (some f) (some u) σ =
        .ok ⟨{ σ with
               posts := σ.posts ++
                 [⟨σ.nextPostId, some u.id, f.title, f.subtitle, today, f.body, f.imgUrl⟩],
               nextPostId := σ.nextPostId + 1 },
             .redirectTo "get_all_posts" none, [], none⟩ ∧
      (σ.posts ++
        [(⟨σ.nextPostId, some u.id, f.title, f.subtitle, today, f.body, f.imgUrl⟩ : BlogPost)]).filter
          (fun p => p.title == f.title) =
        [(⟨σ.nextPostId, some u.id, f.title, f.subtitle, today, f.body, f.imgUrl⟩ : BlogPost)]) := by
  constructor
  · rintro ⟨p, hp, ht⟩
    have hany : σ.posts.any (fun q => q.title == f.title) = true := by
      rw [List.any_eq_true]
      exact ⟨p, hp, by simp [ht]⟩
    simp [add_new_post, admin_only, hadmin, add_new_post_body, hany]
  · intro h
    have hany : σ.posts.any (fun q => q.title == f.title) = false := by
      rw [List.any_eq_false]
      intro x hx
      simpa using h x hx
    have hnil : σ.posts.filter (fun p => p.title == f.title) = [] :=
      List.filter_eq_nil_iff.mpr (fun x hx => by simpa using h x hx)
    refine ⟨by simp [add_new_post, admin_only, hadmin, add_new_post_body, hany], ?_⟩
    simp [List.filter_append, hnil]

/-- Witness for C7: duplicate title and fresh title against the sample
store. -/
theorem add_new_post_title_unique_witness :
    add_new_post "June 01, 2026" (some ⟨"First post", "s", "b", "i"⟩) (some alice) store1 =
      .error .integrityError ∧
    add_new_post "June 01, 2026" (some ⟨"Second post", "s", "b", "i"⟩) (some alice) store1 =
      .ok ⟨{ store1 with
             posts := store1.posts ++
               [⟨store1.nextPostId, some alice.id, "Second post", "s", "June 01, 2026", "b", "i"⟩],
             nextPostId := store1.nextPostId + 1 },
           .redirectTo "get_all_posts" none, [], none⟩ :=
  ⟨(add_new_post_title_unique store1 "June 01, 2026" ⟨"First post", "s", "b", "i"⟩ alice
      (by decide)).1 ⟨post1, by decide, by decide⟩,
   ((add_new_post_title_unique store1 "June 01, 2026" ⟨"Second post", "s", "b", "i"⟩ alice
      (by decide)).2 (by decide)).1⟩

/-- C8 counterexample: at the sample store, post id 7 matches no stored
post; the primary-key lookup is `none`, yet the edit-post route fails with
an uncaught AttributeError and the delete route with an uncaught
UnmappedInstanceError — neither produces any NotFound response. -/
theorem unknown_post_id_counterexample :
    queryGetPost store1 7 = none ∧
    edit_post 7 none (some alice) store1 = .error .attributeError ∧
    delete_post 7 (some alice) store1 = .error .unmappedInstanceError :=
  ⟨by decide, by decide, by decide⟩

/-- C8 amended: for every post id matching no stored post, the primary-key
lookup returns none, but the edit-post route fails with an uncaught
AttributeError and the delete route with an uncaught UnmappedInstanceError
(no commit occurs), rather than returning a NotFound result. -/
theorem unknown_post_id_behavior (σ : Store) (postId : Nat) (u : User)
    (hadmin : u.id = 1) (h : queryGetPost σ postId = none)
    (form : Option CreatePostForm) :
    edit_post postId form (some u) σ = .error .attributeError ∧
    delete_post postId (some u) σ = .error .unmappedInstanceError := by
  constructor <;>
    simp [edit_post, delete_post, admin_only, hadmin, edit_post_body, delete_post_body, h]

/-- Witness for the amended C8 at a concrete store and unknown id. -/
theorem unknown_post_id_behavior_witness :
    edit_post 9 none (some alice) store1 = .error .attributeError ∧
    delete_post 9 (some alice) store1 = .error .unmappedInstanceError :=
  unknown_post_id_behavior store1 9 alice (by decide) (by decide) none

/-- C9: verification succeeds on the registering plaintext and fails on any
other plaintext (a boolean, not an error); consequently, after registering
with a fresh email and password `p`, logging in with `p` establishes a
session for the new user and logging in with any other password does not. -/
theorem password_verify_roundtrip (p q e nm : String) (salt : Nat) (σ : Store)
    (hfresh : ∀ u ∈ σ.users, u.email ≠ e) :
    check_password_hash (generate_password_hash p salt) p = true ∧
    (q ≠ p → check_password_hash (generate_password_hash p salt) q = false) ∧
    (∀ r : HandlerResult, register salt (some ⟨e, p, nm⟩) σ = .ok r →
      r.loginUser = some σ.nextUserId ∧
      login (some ⟨e, p⟩) r.store =
        .ok ⟨r.store, .redirectTo "get_all_posts" none, [], some σ.nextUserId⟩ ∧
      (q ≠ p → login (some ⟨e, q⟩) r.store =
        .ok ⟨r.store, .redirectTo "login" none, ["Invalid password"], none⟩)) := by
  have hf : σ.users.find? (fun u => u.email == e) = none :=
    List.find?_eq_none.mpr (fun x hx => by simpa using hfresh x hx)
  refine ⟨by simp [check_password_hash, generate_password_hash], ?_, ?_⟩
  · intro hq
    simp [check_password_hash, generate_password_hash, PwHash.mk.injEq, Ne.symm hq]
  · intro r hr
    have hr2 : (⟨{ σ with
          users := σ.users ++ [⟨σ.nextUserId, e, generate_password_hash p salt, nm⟩],
          nextUserId := σ.nextUserId + 1 },
        .redirectTo "get_all_posts" none, [], some σ.nextUserId⟩ : HandlerResult) = r := by
      have hred : register salt (some ⟨e, p, nm⟩) σ =
          .ok ⟨{ σ with
                 users := σ.users ++ [⟨σ.nextUserId, e, generate_password_hash p salt, nm⟩],
                 nextUserId := σ.nextUserId + 1 },
               .redirectTo "get_all_posts" none, [], some σ.nextUserId⟩ := by
        simp [register, hf]
      rw [hred] at hr
      exact Except.ok.inj hr
    subst hr2
    have hnil : σ.users.filter (fun v => v.email == e) = [] :=
      List.filter_eq_nil_iff.mpr (fun x hx => by simpa using hfresh x hx)
    refine ⟨rfl, ?_, ?_⟩
    · simp [login, List.filter_append, hnil, check_password_hash, generate_password_hash]
    · intro hq
      simp [login, List.filter_append, hnil, check_password_hash, generate_password_hash,
            PwHash.mk.injEq, Ne.symm hq]

/-- Sample data: the store after Dana registers on an empty store with
password `pw` and salt 9. -/
def danaStore : Store := ⟨[⟨1, "dana@x.com", ⟨9, "pw"⟩, "Dana"⟩], [], [], 2, 1, 1⟩

/-- Witness for C9 at a concrete registration on the empty store. -/
theorem password_verify_roundtrip_witness :
    check_password_hash (generate_password_hash "pw" 9) "pw" = true ∧
    check_password_hash (generate_password_hash "pw" 9) "other" = false ∧
    login (some ⟨"dana@x.com", "pw"⟩) danaStore =
      .ok ⟨danaStore, .redirectTo "get_all_posts" none, [], some 1⟩ ∧
    login (some ⟨"dana@x.com", "other"⟩) danaStore =
      .ok ⟨danaStore, .redirectTo "login" none, ["Invalid password"], none⟩ := by
  have h := password_verify_roundtrip "pw" "other" "dana@x.com" "Dana" 9 emptyStore
    (by decide)
  have h3 := h.2.2 ⟨danaStore, .redirectTo "get_all_posts" none, [], some 1⟩ (by decide)
  exact ⟨h.1, h.2.1 (by decide), h3.2.1, h3.2.2 (by decide)⟩

/-- C10: the user table has no uniqueness constraint on email and both the
registration duplicate-check and the login lookup match emails by exact
string equality: two registrations whose emails differ in any character
(letter case included) both create rows, and any login-established session
belongs to a stored user whose email is character-for-character the
submitted one. -/
theorem email_exact_match (σ : Store) (e1 e2 p1 p2 n1 n2 : String) (s1 s2 : Nat)
    (hne : e1 ≠ e2)
    (h1 : ∀ u ∈ σ.users, u.email ≠ e1) (h2 : ∀ u ∈ σ.users, u.email ≠ e2) :
    register s1 (some ⟨e1, p1, n1⟩) σ =
      .ok ⟨{ σ with
             users := σ.users ++ [⟨σ.nextUserId, e1, generate_password_hash p1 s1, n1⟩],
             nextUserId := σ.nextUserId + 1 },
           .redirectTo "get_all_posts" none, [], some σ.nextUserId⟩ ∧
    register s2 (some ⟨e2, p2, n2⟩)
        { σ with
          users := σ.users ++ [⟨σ.nextUserId, e1, generate_password_hash p1 s1, n1⟩],
          nextUserId := σ.nextUserId + 1 } =
      .ok ⟨{ σ with
             users := σ.users ++ [⟨σ.nextUserId, e1, generate_password_hash p1 s1, n1⟩,
                                  ⟨σ.nextUserId + 1, e2, generate_password_hash p2 s2, n2⟩],
             nextUserId := σ.nextUserId + 2 },
           .redirectTo "get_all_posts" none, [], some (σ.nextUserId + 1)⟩ ∧
    (∀ (f : LoginForm) (r : HandlerResult), login (some f) σ = .ok r →
      ∀ uid : Nat, r.loginUser = some uid →
        ∃ u ∈ σ.users, u.id = uid ∧ u.email = f.email) := by
  have hf1 : σ.users.find? (fun u => u.email == e1) = none :=
    List.find?_eq_none.mpr (fun x hx => by simpa using h1 x hx)
  have hf2 : (σ.users ++ [(⟨σ.nextUserId, e1, generate_password_hash p1 s1, n1⟩ : User)]).find?
      (fun u => u.email == e2) = none := by
    rw [List.find?_eq_none]
    intro x hx
    rcases List.mem_append.mp hx with hx1 | hx2
    · simpa using h2 x hx1
    · have : x = (⟨σ.nextUserId, e1, generate_password_hash p1 s1, n1⟩ : User) := by
        simpa using hx2
      subst this
      simpa using hne
  refine ⟨by simp [register, hf1], ?_, ?_⟩
  · simp [register, hf2]
  · intro f r hr uid huid
    rcases hfil : σ.users.filter (fun v => v.email == f.email) with _ | ⟨w, _ | ⟨x, xs⟩⟩
    · simp only [login, hfil] at hr
      injection hr with hr2
      subst hr2
      simp at huid
    · have hw : w ∈ σ.users.filter (fun v => v.email == f.email) := by
        rw [hfil]; exact List.mem_cons_self w []
      have hw2 := List.mem_filter.mp hw
      by_cases hc : check_password_hash w.password f.password
      · simp only [login, hfil, hc, if_true] at hr
        injection hr with hr2
        subst hr2
        simp only at huid
        injection huid with huid2
        exact ⟨w, hw2.1, huid2, by simpa using hw2.2⟩
      · simp only [login, hfil, hc, if_false] at hr
        injection hr with hr2
        subst hr2
        simp at huid
    · simp only [login, hfil] at hr
      cases hr

/-- Witness for C10: registering two emails differing only in letter case
against the sample store, and a session established by a concrete login. -/
theorem email_exact_match_witness :
    register 5 (some ⟨"A@x.com", "p1", "NameA"⟩) store1 =
      .ok ⟨{ store1 with
             users := store1.users ++ [⟨store1.nextUserId, "A@x.com", generate_password_hash "p1" 5, "NameA"⟩],
             nextUserId := store1.nextUserId + 1 },
           .redirectTo "get_all_posts" none, [], some store1.nextUserId⟩ ∧
    register 6 (some ⟨"a@x.com", "p2", "NameB"⟩)
        { store1 with
          users := store1.users ++ [⟨store1.nextUserId, "A@x.com", generate_password_hash "p1" 5, "NameA"⟩],
          nextUserId := store1.nextUserId + 1 } =
      .ok ⟨{ store1 with
             users := store1.users ++
               [⟨store1.nextUserId, "A@x.com", generate_password_hash "p1" 5, "NameA"⟩,
                ⟨store1.nextUserId + 1, "a@x.com", generate_password_hash "p2" 6, "NameB"⟩],
             nextUserId := store1.nextUserId + 2 },
           .redirectTo "get_all_posts" none, [], some (store1.nextUserId + 1)⟩ ∧
    (∃ u ∈ store1.users, u.id = 2 ∧ u.email = "bob@x.com") := by
  have h := email_exact_match store1 "A@x.com" "a@x.com" "p1" "p2" "NameA" "NameB" 5 6
    (by decide) (by decide) (by decide)
  exact ⟨h.1, h.2.1,
    h.2.2 ⟨"bob@x.com", "pw2"⟩ ⟨store1, .redirectTo "get_all_posts" none, [], some 2⟩
      (by decide) 2 rfl⟩

end Blog
